import Mathlib

/-!
Verification of the MTB spring-rate calculator (`app.py`, `logic.py`,
`constants.py`, `components.py`).  The Python floats are modelled as exact
rationals (`ℚ`); Python's banker-style `round` is modelled by `pyRound`.
-/

namespace SpringRcalc

/-- `LB_TO_KG` from `constants.py` / `app.py`. -/
def LB_TO_KG : ℚ := 0.453592

/-- `KG_TO_LB` from `constants.py` / `app.py`. -/
def KG_TO_LB : ℚ := 2.20462

/-- `IN_TO_MM` from `constants.py` / `app.py`. -/
def IN_TO_MM : ℚ := 25.4

/-- `MM_TO_IN = 1/25.4` from `constants.py` / `app.py`. -/
def MM_TO_IN : ℚ := 1 / 25.4

/-- `PROGRESSIVE_CORRECTION_FACTOR` from `constants.py` / `app.py`. -/
def PROGRESSIVE_CORRECTION_FACTOR : ℚ := 0.97

/-- Python 3 `round` on a rational: round half to even (banker's rounding),
as used in `int(round(raw_rate / 25) * 25)`. -/
def pyRound (q : ℚ) : ℤ :=
  if q - ⌊q⌋ < 1/2 then ⌊q⌋
  else if 1/2 < q - ⌊q⌋ then ⌊q⌋ + 1
  else if ⌊q⌋ % 2 = 0 then ⌊q⌋ else ⌊q⌋ + 1

/-- `kgToLb` unit conversion (`m * KG_TO_LB`). -/
def kg_to_lb (m : ℚ) : ℚ := m * KG_TO_LB

/-- `lbToKg` unit conversion (`m * LB_TO_KG`). -/
def lb_to_kg (m : ℚ) : ℚ := m * LB_TO_KG

/-- mm → in conversion (`x * MM_TO_IN`). -/
def mm_to_in (x : ℚ) : ℚ := x * MM_TO_IN

/-- in → mm conversion (`x * IN_TO_MM`). -/
def in_to_mm (x : ℚ) : ℚ := x * IN_TO_MM

/-- The seven bike categories, in the key order of `CATEGORY_DATA`. -/
inductive Category where
  | downcountry
  | trail
  | allMountain
  | enduro
  | longTravelEnduro
  | enduroRaceFocus
  | downhillDH
deriving DecidableEq

/-- `COUPLING_COEFFS` table from `constants.py` / `app.py`. -/
def COUPLING_COEFFS : Category → ℚ
  | .downcountry => 0.80
  | .trail => 0.75
  | .allMountain => 0.70
  | .enduro => 0.72
  | .longTravelEnduro => 0.90
  | .enduroRaceFocus => 0.78
  | .downhillDH => 0.95

/-- The four entries of the spring-type selectbox in `app.py`. -/
inductive SpringType where
  | standardLinear
  | lightweightSteel
  | sprindex
  | progressiveCoil
deriving DecidableEq

/-- The canonical-unit inputs that feed the calculation block of `app.py`
(sections 4-7): masses in kg, lengths in mm, `bias` the rear-bias slider
percentage (`final_bias_calc`), `target_sag` the sag slider percentage,
`advanced` the `use_advanced_calc` flag with its leverage-ratio inputs. -/
structure CalcInput where
  rider_kg : ℚ
  gear_kg : ℚ
  bike_kg : ℚ
  unsprung_kg : ℚ
  bias : ℚ
  category : Category
  travel_mm : ℚ
  stroke_mm : ℚ
  target_sag : ℚ
  lr_start : ℚ
  lr_end : ℚ
  advanced : Bool
  spring_type : SpringType

/-- `effective_lr` from `app.py` lines 394-398: leverage interpolated to the
sag point in advanced mode, else `travel/stroke` (1.0 when stroke ≤ 0). -/
def effective_lr (i : CalcInput) : ℚ :=
  if i.advanced then i.lr_start - (i.lr_start - i.lr_end) * (i.target_sag / 100)
  else if i.stroke_mm > 0 then i.travel_mm / i.stroke_mm else 1

/-- `eff_rider_kg = rider_kg + gear_kg * coupling` (`app.py` line 401). -/
def eff_rider_kg (i : CalcInput) : ℚ :=
  i.rider_kg + i.gear_kg * COUPLING_COEFFS i.category

/-- `system_kg = eff_rider_kg + bike_kg` (`app.py` line 402). -/
def system_kg (i : CalcInput) : ℚ := eff_rider_kg i + i.bike_kg

/-- `rear_load_kg = (system_kg * (final_bias_calc / 100)) - unsprung_kg`
(`app.py` line 403). -/
def rear_load_kg (i : CalcInput) : ℚ :=
  system_kg i * (i.bias / 100) - i.unsprung_kg

/-- `rear_load_lbs = rear_load_kg * KG_TO_LB` (`app.py` line 404). -/
def rear_load_lbs (i : CalcInput) : ℚ := rear_load_kg i * KG_TO_LB

/-- Sprung mass `systemKg - unsprungKg` (spec step 3; printed as
`sprung_mass` by `logic.py`'s PDF report). -/
def sprung_kg (i : CalcInput) : ℚ := system_kg i - i.unsprung_kg

/-- `sag_mm = stroke_mm * (target_sag / 100)` under the `stroke_mm > 0`
guard, else 0 (`app.py` lines 406-411). -/
def sag_mm (i : CalcInput) : ℚ :=
  if i.stroke_mm > 0 then i.stroke_mm * (i.target_sag / 100) else 0

/-- `raw_rate = (rear_load_lbs * effective_lr) / (sag_mm * MM_TO_IN)` under
the `stroke_mm > 0` guard, else 0 (`app.py` lines 406-411). -/
def raw_rate_base (i : CalcInput) : ℚ :=
  if i.stroke_mm > 0 then rear_load_lbs i * effective_lr i / (sag_mm i * MM_TO_IN)
  else 0

/-- The raw rate after the Progressive Coil correction of `app.py`
lines 413-414. -/
def raw_rate (i : CalcInput) : ℚ :=
  if i.spring_type = SpringType.progressiveCoil then
    raw_rate_base i * PROGRESSIVE_CORRECTION_FACTOR
  else raw_rate_base i

/-- `final_rate_for_tuning = int(round(raw_rate / 25) * 25)` (`app.py`
line 424; identical formula for `center_rate` at line 480). -/
def final_rate_for_tuning (raw : ℚ) : ℤ := pyRound (raw / 25) * 25

/-- One catalog entry of `SPRINDEX_DATA`: the range label `r_str` together
with `low, high = map(int, r_str.split("-"))`. -/
abbrev SprindexRange := String × ℤ × ℤ

/-- `SPRINDEX_DATA["XC/Trail (55mm)"]["ranges"]` with each label paired with
its parsed bounds. -/
def xc55_ranges : List SprindexRange :=
  [("380-430", 380, 430), ("430-500", 430, 500), ("490-560", 490, 560),
   ("550-610", 550, 610), ("610-690", 610, 690), ("650-760", 650, 760)]

/-- `SPRINDEX_DATA["Enduro (65mm)"]["ranges"]` with each label paired with
its parsed bounds. -/
def enduro65_ranges : List SprindexRange :=
  [("340-380", 340, 380), ("390-430", 390, 430), ("450-500", 450, 500),
   ("500-550", 500, 550), ("540-610", 540, 610), ("610-700", 610, 700)]

/-- `SPRINDEX_DATA["DH (75mm)"]["ranges"]` with each label paired with its
parsed bounds. -/
def dh75_ranges : List SprindexRange :=
  [("290-320", 290, 320), ("340-370", 340, 370), ("400-440", 400, 440),
   ("450-490", 450, 490), ("510-570", 510, 570), ("570-630", 570, 630)]

/-- Outcome of the Sprindex range loop in `app.py` lines 440-471:
a perfect fit (with `spr_rounded = int(round(raw_rate / 5) * 5)` as the
tuning rate), a gap between two consecutive ranges (each option carrying
the boundary value that becomes the tuning rate), or no match. -/
inductive SprindexResult where
  | fit (range : String) (rate : ℤ)
  | gap (lower : String × ℤ) (upper : String × ℤ)
  | noMatch
deriving DecidableEq

/-- The `for i, r_str in enumerate(ranges)` loop of `app.py` lines 442-454
followed by the dispatch at lines 455-471: `prev` carries `ranges[i-1]`
(none at `i = 0`), `acc` the `gap_neighbors` accumulator. -/
def sprindexScan (raw : ℚ) :
    Option SprindexRange → Option ((String × ℤ) × (String × ℤ)) →
    List SprindexRange → SprindexResult
  | _, acc, [] =>
      match acc with
      | some (l, u) => .gap l u
      | none => .noMatch
  | prev, acc, (label, low, high) :: rest =>
      if (low : ℚ) ≤ raw ∧ raw ≤ (high : ℚ) then
        .fit label (pyRound (raw / 5) * 5)
      else
        sprindexScan raw (some (label, low, high))
          (match prev with
           | some (plabel, _, phigh) =>
               if (phigh : ℚ) < raw ∧ raw < (low : ℚ) then
                 some ((plabel, phigh), (label, low))
               else acc
           | none => acc) rest

/-- `r_sag_mm = (rear_load_lbs * effective_lr) / (rate * MM_TO_IN)`
(`app.py` line 484). -/
def r_sag_mm (load_lbs lr rate : ℚ) : ℚ := load_lbs * lr / (rate * MM_TO_IN)

/-- `r_sag_pct = (r_sag_mm / stroke_mm) * 100` (`app.py` line 485). -/
def r_sag_pct (load_lbs lr stroke rate : ℚ) : ℚ :=
  r_sag_mm load_lbs lr rate / stroke * 100

/-- The "Available Spring Options" table of `app.py` lines 478-488: rows
`(rate, resulting sag %, fit tag)` for `center_rate - 25`, `center_rate`,
`center_rate + 25`, skipping non-positive rates. -/
def spring_options (load_lbs lr stroke raw : ℚ) : List (ℤ × ℚ × String) :=
  let center := final_rate_for_tuning raw
  ([center - 25, center, center + 25] : List ℤ).filterMap fun (rate : ℤ) =>
    if rate ≤ 0 then none
    else
      let sag := r_sag_pct load_lbs lr stroke (rate : ℚ)
      let tag :=
        if rate = center then "✅ Recommended"
        else if sag > 35 then "⚠️ Too Soft"
        else if sag < 25 then "⚠️ Too Stiff"
        else "Alternative"
      some (rate, sag, tag)

/-- Result record of `analyze_spring_compatibility` (`logic.py`
lines 20-40): status and message per spring family. -/
structure SpringAnalysis where
  linear_status : String
  linear_msg : String
  progressive_status : String
  progressive_msg : String
deriving DecidableEq

/-- `analyze_spring_compatibility` from `logic.py` lines 20-40 (same
decision thresholds as the `app.py` lines 103-126 variant). -/
def analyze_spring_compatibility (progression_pct : ℚ) (has_hbo : Bool) :
    SpringAnalysis :=
  if progression_pct > 25 then
    { linear_status := "OK Optimal"
      linear_msg := "Matches frame kinematics."
      progressive_status := "Caution Avoid"
      progressive_msg := "Risk of harsh Wall Effect." }
  else if 12 ≤ progression_pct ∧ progression_pct ≤ 25 then
    { linear_status := "OK Compatible"
      linear_msg := "Use for a plush coil feel." ++
        (if has_hbo then " (HBO handles bottom-out)." else "")
      progressive_status := "OK Compatible"
      progressive_msg := "Use for more pop and bottom-out resistance." }
  else
    { linear_status := "Caution"
      linear_msg := "High risk of bottom-out without strong HBO."
      progressive_status := "OK Optimal"
      progressive_msg := "Essential to compensate for lack of ramp-up." }

/-- `list(CATEGORY_DATA.keys())` in key order (`constants.py`). -/
def CATEGORY_KEYS : List String :=
  ["Downcountry", "Trail", "All-Mountain", "Enduro", "Long Travel Enduro",
   "Enduro (Race focus)", "Downhill (DH)"]

/-- The travel-bracket category choice of `update_category_from_bike`
(`components.py` lines 29-40, identical brackets in `app.py`
lines 141-147): returns `cat_keys[idx]` for the selected index. -/
def update_category_from_bike (t : ℚ) : String :=
  CATEGORY_KEYS.getD
    (if t < 125 then 0
     else if t < 140 then 1
     else if t < 155 then 2
     else if t < 170 then 3
     else if t < 185 then 4
     else 6) ""

/-- Concrete input of spec Scenario A: 68 kg rider, 4 kg gear, 15.1 kg bike,
4.27 kg unsprung, Enduro (coupling 0.72), 67 % bias, 160/60 mm travel/stroke,
33 % sag, standard linear spring, basic kinematics mode. -/
def sampleInput : CalcInput :=
  { rider_kg := 68, gear_kg := 4, bike_kg := 15.1, unsprung_kg := 4.27
    bias := 67, category := .enduro, travel_mm := 160, stroke_mm := 60
    target_sag := 33, lr_start := 3.02, lr_end := 2.3254, advanced := false
    spring_type := .standardLinear }

/-- Scenario A input with the stroke cleared to 0 (mid-edit form state). -/
def zeroStrokeInput : CalcInput := { sampleInput with stroke_mm := 0 }

theorem pyRound_sub_abs_le (q : ℚ) : |(pyRound q : ℚ) - q| ≤ 1/2 := by
  have h0 : (⌊q⌋ : ℚ) ≤ q := Int.floor_le q
  have h1 : q < (⌊q⌋ : ℚ) + 1 := Int.lt_floor_add_one q
  unfold pyRound
  split_ifs with hlt hgt hev <;>
    rw [abs_le] <;> push_cast <;> constructor <;> linarith

theorem r_sag_pct_eq (load_lbs lr stroke rate : ℚ) :
    r_sag_pct load_lbs lr stroke rate =
      load_lbs * lr / rate / (stroke * MM_TO_IN) * 100 := by
  unfold r_sag_pct r_sag_mm
  ring

/-- C1 counterexample: on Scenario A (positive stroke), the rear load the
code computes is `system_kg * bias/100 - unsprung_kg = 53.3366`, which is
not `sprung_kg * bias/100 = 54.7457`. -/
theorem rear_load_sprung_bias_counterexample :
    0 < sampleInput.stroke_mm ∧
      rear_load_kg sampleInput ≠ sprung_kg sampleInput * (sampleInput.bias / 100) := by
  constructor
  · norm_num [sampleInput]
  · norm_num [rear_load_kg, sprung_kg, system_kg, eff_rider_kg, sampleInput,
      COUPLING_COEFFS]

/-- C1 (amended): the code applies the bias percentage to the total system
mass and then subtracts the unsprung mass, so the rear static load equals
`sprungKg * (bias/100) - unsprungKg * (1 - bias/100)`, not
`sprungKg * (bias/100)`. -/
theorem rear_load_bias_formula (i : CalcInput) :
    rear_load_kg i =
      sprung_kg i * (i.bias / 100) - i.unsprung_kg * (1 - i.bias / 100) := by
  unfold rear_load_kg sprung_kg
  ring

/-- C2 counterexample: for the Enduro (65mm) family, rawRate = 465 is a
perfect fit inside the "450-500" range (450 ≤ 465 ≤ 500), not a gap; the
tuning rate snaps to `int(round(465/5)*5) = 465`. -/
theorem sprindex_465_perfect_fit :
    sprindexScan 465 none none enduro65_ranges = SprindexResult.fit "450-500" 465 := by
  norm_num [sprindexScan, enduro65_ranges, pyRound]

/-- C2 (amended): for the Enduro (65mm) family, a rawRate strictly between
430 and 450 (e.g. 440, since 465 is a perfect fit) falls in the gap between
"390-430" and "450-500", and both neighboring ranges are presented with
their boundary values 430 and 450 as the candidate tuning rates. -/
theorem sprindex_gap_430_450 (raw : ℚ) (h1 : 430 < raw) (h2 : raw < 450) :
    sprindexScan raw none none enduro65_ranges =
      SprindexResult.gap ("390-430", 430) ("450-500", 450) := by
  have n1 : ¬ ((340 : ℚ) ≤ raw ∧ raw ≤ (380 : ℚ)) := by rintro ⟨-, h⟩; linarith
  have n2 : ¬ ((390 : ℚ) ≤ raw ∧ raw ≤ (430 : ℚ)) := by rintro ⟨-, h⟩; linarith
  have n3 : ¬ ((450 : ℚ) ≤ raw ∧ raw ≤ (500 : ℚ)) := by rintro ⟨h, -⟩; linarith
  have n4 : ¬ ((500 : ℚ) ≤ raw ∧ raw ≤ (550 : ℚ)) := by rintro ⟨h, -⟩; linarith
  have n5 : ¬ ((540 : ℚ) ≤ raw ∧ raw ≤ (610 : ℚ)) := by rintro ⟨h, -⟩; linarith
  have n6 : ¬ ((610 : ℚ) ≤ raw ∧ raw ≤ (700 : ℚ)) := by rintro ⟨h, -⟩; linarith
  have g2 : ¬ ((380 : ℚ) < raw ∧ raw < (390 : ℚ)) := by rintro ⟨-, h⟩; linarith
  have g3 : (430 : ℚ) < raw ∧ raw < (450 : ℚ) := ⟨h1, h2⟩
  have g4 : ¬ ((500 : ℚ) < raw ∧ raw < (500 : ℚ)) := by rintro ⟨ha, hb⟩; linarith
  have g5 : ¬ ((550 : ℚ) < raw ∧ raw < (540 : ℚ)) := by rintro ⟨ha, hb⟩; linarith
  have g6 : ¬ ((610 : ℚ) < raw ∧ raw < (610 : ℚ)) := by rintro ⟨ha, hb⟩; linarith
  simp only [enduro65_ranges, sprindexScan]
  push_cast
  rw [if_neg n1, if_neg n2, if_neg n3, if_neg n4, if_neg n5, if_neg n6,
    if_neg g6, if_neg g5, if_neg g4, if_pos g3]

/-- Witness for `sprindex_gap_430_450` at rawRate = 440. -/
theorem sprindex_gap_at_440 :
    sprindexScan 440 none none enduro65_ranges =
      SprindexResult.gap ("390-430", 430) ("450-500", 450) :=
  sprindex_gap_430_450 440 (by norm_num) (by norm_num)

theorem filterMap_pos_eq_filter_map (f : ℤ → ℚ × String) (l : List ℤ) :
    (l.filterMap fun r => if r ≤ 0 then none else some (r, f r)) =
      (l.filter fun r => decide (0 < r)).map fun r => (r, f r) := by
  induction l with
  | nil => simp
  | cons a l ih =>
      by_cases h : a ≤ 0
      · simp [List.filterMap_cons, List.filter_cons, h, not_lt.mpr h, ih]
      · simp [List.filterMap_cons, List.filter_cons, h, not_le.mp h, ih]

/-- C3 counterexample: for load 100 lbs, leverage 3, stroke 60 mm,
rawRate 300 (rounded rate 300), the table holds exactly the three rows
275/300/325 — no rows at 250 and 350 although both are positive — and the
non-target rows are tagged by sag thresholds ("⚠️ Too Soft"), not
"Plush"/"Supportive". -/
theorem spring_options_counterexample :
    (spring_options 100 3 60 300).map (·.1) = [275, 300, 325] ∧
      (spring_options 100 3 60 300).map (·.2.2) =
        ["⚠️ Too Soft", "✅ Recommended", "⚠️ Too Soft"] := by
  constructor <;>
    norm_num [spring_options, final_rate_for_tuning, pyRound, r_sag_pct,
      r_sag_mm, MM_TO_IN, List.filterMap]

/-- C3 (amended): the table holds one row for each of the rounded rate plus
{-25, 0, +25} lbs/in (not ±50) with non-positive rates skipped; each row's
sag is `((rearLoadLbs * effectiveLR / rate) / (strokeMm * mmToIn)) * 100`;
a row is tagged "✅ Recommended" when its rate equals the rounded rate, else
"⚠️ Too Soft" when its sag exceeds 35 %, "⚠️ Too Stiff" when its sag is
below 25 %, and "Alternative" otherwise. -/
theorem spring_options_spec (load_lbs lr stroke raw : ℚ) :
    spring_options load_lbs lr stroke raw =
      (([final_rate_for_tuning raw - 25, final_rate_for_tuning raw,
          final_rate_for_tuning raw + 25] : List ℤ).filter fun r =>
            decide (0 < r)).map fun (r : ℤ) =>
        (r, load_lbs * lr / (r : ℚ) / (stroke * MM_TO_IN) * 100,
          if r = final_rate_for_tuning raw then "✅ Recommended"
          else if load_lbs * lr / (r : ℚ) / (stroke * MM_TO_IN) * 100 > 35 then
            "⚠️ Too Soft"
          else if load_lbs * lr / (r : ℚ) / (stroke * MM_TO_IN) * 100 < 25 then
            "⚠️ Too Stiff"
          else "Alternative") := by
  unfold spring_options
  simp only [r_sag_pct_eq]
  exact filterMap_pos_eq_filter_map
    (fun (r : ℤ) =>
      (load_lbs * lr / (r : ℚ) / (stroke * MM_TO_IN) * 100,
        if r = final_rate_for_tuning raw then "✅ Recommended"
        else if load_lbs * lr / (r : ℚ) / (stroke * MM_TO_IN) * 100 > 35 then
          "⚠️ Too Soft"
        else if load_lbs * lr / (r : ℚ) / (stroke * MM_TO_IN) * 100 < 25 then
          "⚠️ Too Stiff"
        else "Alternative")) _

/-- C4: for every positive raw rate, the rounded recommended rate
`int(round(raw_rate / 25) * 25)` is a multiple of 25 lbs/in and differs
from the raw rate by at most 12.5 lbs/in. -/
theorem final_rate_rounding (raw : ℚ) (_h : 0 < raw) :
    (25 : ℤ) ∣ final_rate_for_tuning raw ∧
      |(final_rate_for_tuning raw : ℚ) - raw| ≤ 25 / 2 := by
  constructor
  · exact dvd_mul_left 25 (pyRound (raw / 25))
  · have hk : (final_rate_for_tuning raw : ℚ) - raw =
        25 * ((pyRound (raw / 25) : ℚ) - raw / 25) := by
      unfold final_rate_for_tuning
      push_cast
      ring
    rw [hk, abs_mul, abs_of_pos (show (0 : ℚ) < 25 by norm_num)]
    linarith [pyRound_sub_abs_le (raw / 25)]

/-- Witness for `final_rate_rounding` at rawRate = 310 lbs/in. -/
theorem final_rate_rounding_at_310 :
    (25 : ℤ) ∣ final_rate_for_tuning 310 ∧
      |(final_rate_for_tuning 310 : ℚ) - 310| ≤ 25 / 2 :=
  final_rate_rounding 310 (by norm_num)

/-- C5: for identical inputs with positive stroke, the Progressive Coil raw
rate equals exactly 0.97 times the standard linear raw rate. -/
theorem progressive_correction (i : CalcInput) (_h : 0 < i.stroke_mm) :
    raw_rate { i with spring_type := SpringType.progressiveCoil } =
      0.97 * raw_rate { i with spring_type := SpringType.standardLinear } := by
  have hb : ∀ t, raw_rate_base { i with spring_type := t } = raw_rate_base i :=
    fun t => rfl
  unfold raw_rate
  rw [if_pos rfl, if_neg (by simp), hb, hb]
  unfold PROGRESSIVE_CORRECTION_FACTOR
  exact mul_comm _ _

/-- Witness for `progressive_correction` on the Scenario A input. -/
theorem progressive_correction_sample :
    raw_rate { sampleInput with spring_type := SpringType.progressiveCoil } =
      0.97 * raw_rate { sampleInput with spring_type := SpringType.standardLinear } :=
  progressive_correction sampleInput (by norm_num [sampleInput])

/-- C6: whenever the stroke is ≤ 0 (including exactly 0), the computation
takes the guard branch and returns the zero sentinel for both the raw rate
and the sag, for every spring type. -/
theorem degenerate_stroke (i : CalcInput) (h : i.stroke_mm ≤ 0) :
    raw_rate i = 0 ∧ sag_mm i = 0 := by
  have hb : raw_rate_base i = 0 := by
    unfold raw_rate_base
    rw [if_neg (not_lt.mpr h)]
  refine ⟨?_, by unfold sag_mm; rw [if_neg (not_lt.mpr h)]⟩
  unfold raw_rate
  split_ifs <;> simp [hb]

/-- Witness for `degenerate_stroke` at stroke = 0. -/
theorem degenerate_stroke_at_zero :
    raw_rate zeroStrokeInput = 0 ∧ sag_mm zeroStrokeInput = 0 :=
  degenerate_stroke zeroStrokeInput (by norm_num [zeroStrokeInput])

/-- C7 counterexample: with the program constants, converting 80 kg to lb
and back misses 80 by 80·(1 − 0.453592·2.20462) ≈ 1.6·10⁻⁴ kg, which
exceeds the claimed 1e-6 relative tolerance. -/
theorem mass_roundtrip_counterexample :
    ¬ (|kg_to_lb (lb_to_kg 80) - 80| ≤ 1e-6 * 80) := by
  norm_num [kg_to_lb, lb_to_kg, KG_TO_LB, LB_TO_KG, abs]

/-- C7 (amended): since 0.453592 · 2.20462 = 0.99999799504, the kg/lb round
trip agrees only within a 2.005e-6 relative tolerance (its relative error is
2.00496e-6 > 1e-6); the mm/in round trips with 25.4 and 1/25.4 are exact. -/
theorem unit_roundtrip (m : ℚ) (h : 0 ≤ m) :
    |kg_to_lb (lb_to_kg m) - m| ≤ 2.005e-6 * m ∧
      in_to_mm (mm_to_in m) = m ∧ mm_to_in (in_to_mm m) = m := by
  refine ⟨?_, ?_, ?_⟩
  · have hk : kg_to_lb (lb_to_kg m) - m = -(0.00000200496 * m) := by
      unfold kg_to_lb lb_to_kg KG_TO_LB LB_TO_KG
      ring
    rw [hk, abs_neg, abs_of_nonneg (by positivity)]
    exact mul_le_mul_of_nonneg_right (by norm_num) h
  · unfold in_to_mm mm_to_in MM_TO_IN IN_TO_MM
    rw [mul_assoc]
    norm_num
  · unfold in_to_mm mm_to_in MM_TO_IN IN_TO_MM
    rw [mul_assoc]
    norm_num

/-- Witness for `unit_roundtrip` at m = 1. -/
theorem unit_roundtrip_at_one :
    |kg_to_lb (lb_to_kg 1) - 1| ≤ 2.005e-6 * 1 ∧
      in_to_mm (mm_to_in 1) = 1 ∧ mm_to_in (in_to_mm 1) = 1 :=
  unit_roundtrip 1 (by norm_num)

/-- C8: the three-way decision table of `analyze_spring_compatibility`:
progression > 25 marks Linear Optimal and Progressive Avoid; 12..25
inclusive marks both Compatible; below 12 marks Linear Caution and
Progressive Optimal (for either HBO setting). -/
theorem spring_compatibility_table (p : ℚ) (hbo : Bool) :
    (25 < p →
      (analyze_spring_compatibility p hbo).linear_status = "OK Optimal" ∧
        (analyze_spring_compatibility p hbo).progressive_status = "Caution Avoid") ∧
    (12 ≤ p → p ≤ 25 →
      (analyze_spring_compatibility p hbo).linear_status = "OK Compatible" ∧
        (analyze_spring_compatibility p hbo).progressive_status = "OK Compatible") ∧
    (p < 12 →
      (analyze_spring_compatibility p hbo).linear_status = "Caution" ∧
        (analyze_spring_compatibility p hbo).progressive_status = "OK Optimal") := by
  unfold analyze_spring_compatibility
  split_ifs with h1 h2 h3
  · exact ⟨fun _ => ⟨rfl, rfl⟩,
      fun _ hb => absurd h1 (by linarith),
      fun hc => absurd h1 (by linarith)⟩
  · exact ⟨fun hx => absurd hx h1,
      fun _ _ => ⟨rfl, rfl⟩,
      fun hc => absurd h2.1 (by linarith)⟩
  · exact ⟨fun hx => absurd hx h1,
      fun _ _ => ⟨rfl, rfl⟩,
      fun hc => absurd h2.1 (by linarith)⟩
  · exact ⟨fun hx => absurd hx h1,
      fun ha hb => absurd (And.intro ha hb) h2,
      fun _ => ⟨rfl, rfl⟩⟩

/-- Witness for `spring_compatibility_table` at progressions 30, 20 and 8. -/
theorem spring_compatibility_table_cases :
    ((analyze_spring_compatibility 30 false).linear_status = "OK Optimal" ∧
      (analyze_spring_compatibility 30 false).progressive_status = "Caution Avoid") ∧
    ((analyze_spring_compatibility 20 false).linear_status = "OK Compatible" ∧
      (analyze_spring_compatibility 20 false).progressive_status = "OK Compatible") ∧
    ((analyze_spring_compatibility 8 false).linear_status = "Caution" ∧
      (analyze_spring_compatibility 8 false).progressive_status = "OK Optimal") :=
  ⟨(spring_compatibility_table 30 false).1 (by norm_num),
    (spring_compatibility_table 20 false).2.1 (by norm_num) (by norm_num),
    (spring_compatibility_table 8 false).2.2 (by norm_num)⟩

/-- C9: with positive rear load, leverage and stroke fixed, the sag of the
alternative-rate table is strictly decreasing in the spring rate. -/
theorem sag_strict_antitone (load_lbs lr stroke r1 r2 : ℚ)
    (hload : 0 < load_lbs) (hlr : 0 < lr) (hs : 0 < stroke)
    (hr1 : 0 < r1) (hr12 : r1 < r2) :
    r_sag_pct load_lbs lr stroke r2 < r_sag_pct load_lbs lr stroke r1 := by
  unfold r_sag_pct r_sag_mm
  have hm : (0 : ℚ) < MM_TO_IN := by norm_num [MM_TO_IN]
  have key : load_lbs * lr / (r2 * MM_TO_IN) < load_lbs * lr / (r1 * MM_TO_IN) := by
    apply div_lt_div_of_pos_left (by positivity) (by positivity)
    nlinarith
  have h2 : load_lbs * lr / (r2 * MM_TO_IN) / stroke <
      load_lbs * lr / (r1 * MM_TO_IN) / stroke :=
    div_lt_div_of_pos_right key hs
  exact mul_lt_mul_of_pos_right h2 (by norm_num)

/-- Witness for `sag_strict_antitone`: load 130 lbs, leverage 2.8, stroke
60 mm, rates 400 < 450. -/
theorem sag_strict_antitone_sample :
    r_sag_pct 130 2.8 60 450 < r_sag_pct 130 2.8 60 400 :=
  sag_strict_antitone 130 2.8 60 400 450 (by norm_num) (by norm_num)
    (by norm_num) (by norm_num) (by norm_num)

/-- C10: the travel-bracket categorisation picks indexes 0-4 or 6 of the
category key list and therefore never yields "Enduro (Race focus)"
(index 5); its image is the six other categories. -/
theorem category_from_travel_skips_race_focus (t : ℚ) :
    update_category_from_bike t ≠ "Enduro (Race focus)" ∧
      update_category_from_bike t ∈
        ["Downcountry", "Trail", "All-Mountain", "Enduro",
          "Long Travel Enduro", "Downhill (DH)"] := by
  unfold update_category_from_bike CATEGORY_KEYS
  split_ifs <;> exact ⟨by decide, by decide⟩

end SpringRcalc
